import Mathlib

/-!
Verification development for the dtformats binary-format decoders
(Windows Jump List files and MacOS keychain database files).

The Python sources `dtformats/jump_list.py` and `dtformats/keychain.py`
are embedded shallowly: byte streams become `List Nat` (each element one
byte value), little-endian and big-endian integer fields are decoded with
explicit arithmetic, and fallible decoding returns `Except`/`Option`
values mirroring the exceptions raised by the Python code.
-/

set_option autoImplicit false

/-- Bytes of a binary stream, least significant position first in slices. -/
abbrev Byte := Nat

/-- Value of a byte list interpreted little-endian (first byte least significant). -/
def leValue : List Byte → Nat
  | [] => 0
  | b :: rest => b + 256 * leValue rest

/-- Value of a byte list interpreted big-endian (first byte most significant). -/
def beValue (bs : List Byte) : Nat :=
  bs.foldl (fun acc b => acc * 256 + b) 0

/-- Slice of `n` bytes starting at `off`; shorter when the data runs out. -/
def sliceBytes (data : List Byte) (off n : Nat) : List Byte :=
  (data.drop off).take n

/-- Slice of `n` bytes at `off`, or `none` when fewer than `n` bytes remain. -/
def readBytes (data : List Byte) (off n : Nat) : Option (List Byte) :=
  if off + n ≤ data.length then some (sliceBytes data off n) else none

/-- Little-endian 16-bit value at `off` (missing bytes read as zero). -/
def leUInt16At (data : List Byte) (off : Nat) : Nat :=
  leValue (sliceBytes data off 2)

/-- Little-endian 32-bit value at `off` (missing bytes read as zero). -/
def leUInt32At (data : List Byte) (off : Nat) : Nat :=
  leValue (sliceBytes data off 4)

/-- Little-endian 64-bit value at `off` (missing bytes read as zero). -/
def leUInt64At (data : List Byte) (off : Nat) : Nat :=
  leValue (sliceBytes data off 8)

/-- UTF-16 little-endian code units: `n` 16-bit values starting at `off`. -/
def utf16UnitsAt (data : List Byte) (off n : Nat) : List Nat :=
  (List.range n).map (fun i => leUInt16At data (off + 2 * i))

/-- Validity of a UTF-16 code-unit sequence under Python's strict decoder:
high surrogates must be followed by a low surrogate and low surrogates may
not stand alone. -/
def utf16Valid : List Nat → Bool
  | [] => true
  | u :: rest =>
    if u < 0xD800 || 0xE000 ≤ u then utf16Valid rest
    else if u < 0xDC00 then
      match rest with
      | v :: rest2 => (0xDC00 ≤ v && v < 0xE000) && utf16Valid rest2
      | [] => false
    else false

/-- Python `bytes.decode` with the ascii codec succeeds exactly when every
byte is below 128. -/
def asciiValid (bs : List Byte) : Bool :=
  bs.all (fun b => b < 128)

instance {ε α : Type} [DecidableEq ε] [DecidableEq α] :
    DecidableEq (Except ε α) := fun a b =>
  match a, b with
  | .error x, .error y =>
    if h : x = y then .isTrue (by rw [h])
    else .isFalse (fun hh => h (by injection hh))
  | .error _, .ok _ => .isFalse (fun hh => Except.noConfusion hh)
  | .ok _, .error _ => .isFalse (fun hh => Except.noConfusion hh)
  | .ok x, .ok y =>
    if h : x = y then .isTrue (by rw [h])
    else .isFalse (fun hh => h (by injection hh))

/-!
## FromFiletime (jump_list.py lines 23-46)

The Python body is

  if filetime < 0: return
  timestamp, _ = divmod(filetime, 10)
  return datetime.datetime(1601, 1, 1) + datetime.timedelta(microseconds=timestamp)

Python's `datetime` is bounded: `datetime.MAXYEAR = 9999`, and adding a
`timedelta` whose result would pass 9999-12-31 23:59:59.999999 raises
`OverflowError`.  That bound is embedded below through the proleptic
Gregorian day count.
-/

/-- Number of days in the proleptic Gregorian calendar strictly before
year `y` (Python `datetime.date(y, 1, 1).toordinal() - 1`). -/
def daysBeforeYear (y : Nat) : Nat :=
  365 * (y - 1) + (y - 1) / 4 - (y - 1) / 100 + (y - 1) / 400

/-- Largest number of microseconds that can be added to
`datetime.datetime(1601, 1, 1)` without leaving Python's datetime range,
whose maximum is 9999-12-31 23:59:59.999999. -/
def datetimeMaxMicrosecondsFrom1601 : Nat :=
  (daysBeforeYear 10000 - daysBeforeYear 1601) * 86400000000 - 1

/-- Outcome of `FromFiletime`: Python `None`, a `datetime` (represented by
its microsecond distance from 1601-01-01 00:00:00), or the `OverflowError`
raised by out-of-range datetime arithmetic. -/
inductive FiletimeResult where
  | noneResult : FiletimeResult
  | datetime (microsecondsSince1601 : Nat) : FiletimeResult
  | overflowError : FiletimeResult
deriving DecidableEq

/-- Shallow embedding of `FromFiletime` (jump_list.py lines 23-46). -/
def FromFiletime (filetime : Int) : FiletimeResult :=
  if filetime < 0 then .noneResult
  else
    let timestamp := (filetime / 10).toNat
    if timestamp ≤ datetimeMaxMicrosecondsFrom1601 then .datetime timestamp
    else .overflowError

/-!
## Automatic Destinations Jump List (jump_list.py, AutomaticDestinationsFile)
-/

namespace AutomaticDestinations

/-- Decoded `dest_list_header` (jump_list.py lines 156-176), eight
little-endian 4-byte fields; the float field `unknown1` is kept as raw
bytes. -/
structure DestListHeader where
  formatVersion : Nat
  numberOfEntries : Nat
  numberOfPinnedEntries : Nat
  unknown1 : List Byte
  lastEntryNumber : Nat
  unknown2 : Nat
  lastRevisionNumber : Nat
  unknown3 : Nat
deriving DecidableEq

/-- Errors raised while reading the DestList header: a truncated
structure read, or the unsupported-format-version failure raised at
jump_list.py line 444 (the spec taxonomy's UnsupportedVersionError). -/
inductive DestListHeaderError where
  | truncated : DestListHeaderError
  | unsupportedVersion (version : Nat) : DestListHeaderError
deriving DecidableEq

/-- Shallow embedding of `_ReadDestListHeader` (jump_list.py lines
427-448): decode the 32-byte header, then fail unless
`format_version in (1, 3, 4)`. -/
def readDestListHeader (data : List Byte) (off : Nat) :
    Except DestListHeaderError DestListHeader :=
  if off + 32 ≤ data.length then
    if leUInt32At data off ≠ 1 ∧ leUInt32At data off ≠ 3 ∧
        leUInt32At data off ≠ 4 then
      .error (.unsupportedVersion (leUInt32At data off))
    else
      .ok ⟨leUInt32At data off, leUInt32At data (off + 4),
           leUInt32At data (off + 8), sliceBytes data (off + 12) 4,
           leUInt32At data (off + 16), leUInt32At data (off + 20),
           leUInt32At data (off + 24), leUInt32At data (off + 28)⟩
  else
    .error .truncated

/-- Errors of a size-hint structure read (spec section 4.1): truncated
fixed-size prefix, or a field-level mapping failure (string decoding, or a
length-parameterized field that would pass the end of the buffer). -/
inductive DecodeError where
  | truncated : DecodeError
  | mapping : DecodeError
deriving DecidableEq

/-- Decoded `dest_list_entry_v1` (jump_list.py lines 178-214).  Fixed
prefix: uint64, four 16-byte identifiers, 16-byte ascii hostname, three
4-byte fields, uint64 timestamp, 4-byte pin status, uint16 path size,
then `path_size` UTF-16 code units. -/
structure DestListEntryV1 where
  unknown1 : Nat
  droidVolumeIdentifier : List Byte
  droidFileIdentifier : List Byte
  birthDroidVolumeIdentifier : List Byte
  birthDroidFileIdentifier : List Byte
  hostname : List Byte
  entryNumber : Nat
  unknown2 : Nat
  unknown3 : List Byte
  lastModificationTime : Nat
  pinStatus : Nat
  pathSize : Nat
  path : List Nat
deriving DecidableEq

/-- Decoded `dest_list_entry_v3` (jump_list.py lines 216-260): the v1
fields plus `unknown4`, `unknown5`, `unknown6` before `path_size` and
`unknown7` after `path`. -/
structure DestListEntryV3 where
  unknown1 : Nat
  droidVolumeIdentifier : List Byte
  droidFileIdentifier : List Byte
  birthDroidVolumeIdentifier : List Byte
  birthDroidFileIdentifier : List Byte
  hostname : List Byte
  entryNumber : Nat
  unknown2 : Nat
  unknown3 : List Byte
  lastModificationTime : Nat
  pinStatus : Nat
  unknown4 : Nat
  unknown5 : Nat
  unknown6 : Nat
  pathSize : Nat
  path : List Nat
  unknown7 : Nat
deriving DecidableEq

/-- Modelled from the spec: `_ReadStructureWithSizeHint` of
`dtformats/data_format.py` is not under src; spec section 4.1 specifies the
size-hint decode mode, which returns the record together with the running
offset after the last decoded field.  Applied to the `dest_list_entry_v1`
schema of jump_list.py lines 178-214: fixed prefix of 114 bytes
(8 + 4*16 + 16 + 4 + 4 + 4 + 8 + 4 + 2), then `path_size` UTF-16 code
units of 2 bytes each. -/
def readDestListEntryV1 (data : List Byte) (off : Nat) :
    Except DecodeError (DestListEntryV1 × Nat) :=
  if off + 114 ≤ data.length then
    if asciiValid (sliceBytes data (off + 72) 16) then
      if off + 114 + 2 * leUInt16At data (off + 112) ≤ data.length then
        if utf16Valid (utf16UnitsAt data (off + 114) (leUInt16At data (off + 112))) then
          .ok (⟨leUInt64At data off, sliceBytes data (off + 8) 16,
                sliceBytes data (off + 24) 16, sliceBytes data (off + 40) 16,
                sliceBytes data (off + 56) 16, sliceBytes data (off + 72) 16,
                leUInt32At data (off + 88), leUInt32At data (off + 92),
                sliceBytes data (off + 96) 4, leUInt64At data (off + 100),
                leUInt32At data (off + 108), leUInt16At data (off + 112),
                utf16UnitsAt data (off + 114) (leUInt16At data (off + 112))⟩,
               114 + 2 * leUInt16At data (off + 112))
        else .error .mapping
      else .error .mapping
    else .error .mapping
  else .error .truncated

/-- Modelled from the spec: size-hint decode (spec section 4.1) of the
`dest_list_entry_v3` schema of jump_list.py lines 216-260: fixed prefix
of 130 bytes (the v1 prefix plus int32 + uint32 + uint64), `path_size`
UTF-16 code units, then a trailing uint32 `unknown7`. -/
def readDestListEntryV3 (data : List Byte) (off : Nat) :
    Except DecodeError (DestListEntryV3 × Nat) :=
  if off + 130 ≤ data.length then
    if asciiValid (sliceBytes data (off + 72) 16) then
      if off + 134 + 2 * leUInt16At data (off + 128) ≤ data.length then
        if utf16Valid (utf16UnitsAt data (off + 130) (leUInt16At data (off + 128))) then
          .ok (⟨leUInt64At data off, sliceBytes data (off + 8) 16,
                sliceBytes data (off + 24) 16, sliceBytes data (off + 40) 16,
                sliceBytes data (off + 56) 16, sliceBytes data (off + 72) 16,
                leUInt32At data (off + 88), leUInt32At data (off + 92),
                sliceBytes data (off + 96) 4, leUInt64At data (off + 100),
                leUInt32At data (off + 108), leUInt32At data (off + 112),
                leUInt32At data (off + 116), leUInt64At data (off + 120),
                leUInt16At data (off + 128),
                utf16UnitsAt data (off + 130) (leUInt16At data (off + 128)),
                leUInt32At data (off + 130 + 2 * leUInt16At data (off + 128))⟩,
               134 + 2 * leUInt16At data (off + 128))
        else .error .mapping
      else .error .mapping
    else .error .mapping
  else .error .truncated

/-- Value of `readDestListEntryV1` projected to the consumed byte count. -/
def consumedOfV1 (data : List Byte) (off : Nat) : Option Nat :=
  match readDestListEntryV1 data off with
  | .ok (_, n) => some n
  | .error _ => none

/-- Value of `readDestListEntryV1` projected to the decoded `path_size`. -/
def pathSizeOfV1 (data : List Byte) (off : Nat) : Option Nat :=
  match readDestListEntryV1 data off with
  | .ok (e, _) => some e.pathSize
  | .error _ => none

/-- An OLECF sub-stream of the compound container, together with the
outcome of the external shortcut (LNK) collaborator on that stream:
`Sum.inl message` stands for the IOError raised by `pylnk`, `Sum.inr n`
for a successful open that consumed `n` bytes (spec section 6 models the
shortcut decoder as an external collaborator). -/
structure OleStream where
  name : String
  lnkOutcome : Sum String Nat
deriving DecidableEq

/-- A decoded LNK file entry (jump_list.py class LNKFileEntry): the
stream name used as identifier and the byte count the shortcut decoder
consumed (`data_size`). -/
structure LNKFileEntry where
  identifier : String
  dataSize : Nat
deriving DecidableEq

/-- Shallow embedding of `AutomaticDestinationsFile._ReadLNKFile`
(jump_list.py lines 450-478): an IOError from the shortcut collaborator
is wrapped and re-raised as a ParseError naming the stream. -/
def readLNKFile (s : OleStream) : Except String LNKFileEntry :=
  match s.lnkOutcome with
  | Sum.inl message =>
      Except.error
        ("Unable to parse LNK file from stream: " ++ s.name ++
         " with error: " ++ message)
  | Sum.inr consumedSize => Except.ok ⟨s.name, consumedSize⟩

/-- Shallow embedding of `AutomaticDestinationsFile._ReadLNKFiles`
(jump_list.py lines 480-492): iterate over the container's sub-streams,
skipping the one named DestList; the Python loop has no try/except, so a
ParseError raised by `_ReadLNKFile` propagates and stops the iteration.
The result pairs the entries that were appended to `self.entries` before
the failure with the propagated error, if any. -/
def readLNKFiles : List OleStream → List LNKFileEntry × Option String
  | [] => ([], none)
  | s :: rest =>
    if s.name = "DestList" then readLNKFiles rest
    else
      match readLNKFile s with
      | .error e => ([], some e)
      | .ok entry =>
        match readLNKFiles rest with
        | (entries, err) => (entry :: entries, err)

/-- Entry that a stream contributes when the whole iteration succeeds:
none for the DestList stream, otherwise the entry built from the
collaborator's consumed byte count. -/
def streamEntry (s : OleStream) : Option LNKFileEntry :=
  if s.name = "DestList" then none
  else
    match s.lnkOutcome with
    | Sum.inr n => some ⟨s.name, n⟩
    | Sum.inl _ => none

end AutomaticDestinations

/-!
## Custom Destinations Jump List (jump_list.py, CustomDestinationsFile)
-/

namespace CustomDestinations

/-- The fixed shortcut class identifier used as the per-entry marker
(jump_list.py lines 628-629, `_LNK_GUID`). -/
def LNK_GUID : List Byte :=
  [0x01, 0x14, 0x02, 0x00, 0x00, 0x00, 0x00, 0x00,
   0xc0, 0x00, 0x00, 0x00, 0x00, 0x00, 0x00, 0x46]

/-- The fixed footer signature (jump_list.py line 622). -/
def FILE_FOOTER_SIGNATURE : Nat := 0xbabffbab

/-- Shallow embedding of `CustomDestinationsFile._ReadFileHeader`
(jump_list.py lines 674-725): decode the 16-byte header, require
`unknown1 = 2` and `header_values_type <= 2`, then consume the header
value block.  For value types 1 and 2 this block is a 4-byte entry
count.  For value type 0 the data map has no fixed byte size, so the
Python code reads to end-of-file and maps a uint16 character count, that
many UTF-16 code units and a uint32 entry count from it.  The result is
the file offset immediately after the consumed bytes. -/
def readFileHeader (data : List Byte) : Except String Nat :=
  if 16 ≤ data.length then
    if leUInt32At data 0 ≠ 2 then .error "Unsupported unknown1"
    else if 2 < leUInt32At data 12 then .error "Unsupported header value type"
    else if leUInt32At data 12 = 0 then
      if 2 ≤ (data.drop 16).length then
        if 2 + 2 * leUInt16At data 16 + 4 ≤ (data.drop 16).length then
          if utf16Valid (utf16UnitsAt data 18 (leUInt16At data 16)) then
            .ok data.length
          else .error "Unable to parse file header value"
        else .error "Unable to parse file header value"
      else .error "Unable to parse file header value"
    else
      if 20 ≤ data.length then .ok 20
      else .error "Unable to parse file header value"
  else .error "Unable to parse file header"

/-- Shallow embedding of `CustomDestinationsFile._ReadFileFooter`
(jump_list.py lines 821-840): decode a 4-byte little-endian value and
fail with a ParseError unless it equals the footer signature. -/
def readFileFooter (data : List Byte) (off : Nat) : Except String Unit :=
  if off + 4 ≤ data.length then
    if leUInt32At data off ≠ FILE_FOOTER_SIGNATURE then
      .error "Invalid footer signature"
    else .ok ()
  else .error "Unable to parse file footer"

/-- State when the entry scan loop hands control back to
`ReadFileObject`: the data sizes of the collected LNK entries (the
Python code appends them to `self.entries` as they are read, so they
survive a later exception), the propagated ParseError if one was raised,
and the file position on normal exit. -/
structure ScanResult where
  entries : List Nat
  error : Option String
  cursor : Nat
deriving DecidableEq

/-- Shallow embedding of the `while remaining_file_size > 4` loop of
`CustomDestinationsFile._ReadLNKFiles` (jump_list.py lines 759-819).
The external shortcut collaborator `lnk` receives the byte range
handed to it through DataRange (the remaining bytes after the 16-byte
marker) and answers either an IOError message or a consumed byte count;
DataRange caps the consumed count at the range size.  `fuel` bounds the
recursion; every iteration that continues consumes at least the 16
marker bytes, so `data.length + 1` steps are always sufficient. -/
def scanLoop (lnk : List Byte → Sum String Nat) (data : List Byte) :
    Nat → Nat → Nat → Bool → List Nat → ScanResult
  | 0, off, _, _, acc => ⟨acc.reverse, some "out of fuel", off⟩
  | fuel + 1, off, remaining, firstGuidChecked, acc =>
    if remaining ≤ 4 then ⟨acc.reverse, none, off⟩
    else
      match readBytes data off 16 with
      | none =>
        -- truncated entry header: fatal on the first entry, otherwise a
        -- logged warning that stops the scan with the file cursor after
        -- the partial read
        if firstGuidChecked then ⟨acc.reverse, none, min (off + 16) data.length⟩
        else ⟨acc.reverse, some "Unable to parse file entry header", off⟩
      | some guid =>
        if guid ≠ LNK_GUID then
          if firstGuidChecked then
            -- rewind 16 bytes, validate the footer there, rewind 4 bytes
            match readFileFooter data off with
            | .error e => ⟨acc.reverse, some e, off⟩
            | .ok _ => ⟨acc.reverse, none, off⟩
          else ⟨acc.reverse, some "Invalid entry header", off⟩
        else
          let off2 := off + 16
          let rem2 := remaining - 16
          match lnk (sliceBytes data off2 rem2) with
          | Sum.inl _ => ⟨acc.reverse, some "Unable to parse LNK file", off2⟩
          | Sum.inr consumed =>
            let c := min consumed rem2
            scanLoop lnk data fuel (off2 + c) (rem2 - c) true (c :: acc)

/-- Caller-visible outcome of reading a custom destinations file: the
collected entry sizes and the error, if the read raised one. -/
structure CustomResult where
  entries : List Nat
  error : Option String
deriving DecidableEq

/-- Shallow embedding of `CustomDestinationsFile.ReadFileObject`
(jump_list.py lines 842-862): read the header, scan the LNK entries,
and read the footer.  The trailing-data check between the scan and the
footer read only emits debug text (a TODO marks the unimplemented
recovery), so it contributes nothing to the result. -/
def readFileObject (lnk : List Byte → Sum String Nat) (data : List Byte) :
    CustomResult :=
  match readFileHeader data with
  | .error e => ⟨[], some e⟩
  | .ok c0 =>
    let scan := scanLoop lnk data (data.length + 1) c0 (data.length - c0) false []
    match scan.error with
    | some e => ⟨scan.entries, some e⟩
    | none =>
      match readFileFooter data scan.cursor with
      | .error e => ⟨scan.entries, some e⟩
      | .ok _ => ⟨scan.entries, none⟩

/-- The trailing-data condition tested at jump_list.py line 855:
after a successful scan, more than 4 bytes remain before end-of-file. -/
def detectsTrailingData (lnk : List Byte → Sum String Nat)
    (data : List Byte) : Bool :=
  match readFileHeader data with
  | .error _ => false
  | .ok c0 =>
    let scan := scanLoop lnk data (data.length + 1) c0 (data.length - c0) false []
    scan.error = none && scan.cursor + 4 < data.length

/-- Well-formedness of a run of marker-delimited shortcut entries
starting at `off`: each entry is the 16-byte class identifier followed
by a payload whose length the shortcut collaborator reports for the
byte range it is handed. -/
def chunksSpec (lnk : List Byte → Sum String Nat) (data : List Byte) :
    Nat → List Nat → Bool
  | _, [] => true
  | off, sz :: rest =>
    decide (off + 16 ≤ data.length) &&
    decide (sliceBytes data off 16 = LNK_GUID) &&
    decide (lnk (sliceBytes data (off + 16) (data.length - (off + 16))) =
      Sum.inr sz) &&
    decide (sz ≤ data.length - (off + 16)) &&
    chunksSpec lnk data (off + 16 + sz) rest

/-- Offset immediately after a run of entries with the given payload
sizes, each preceded by its 16-byte marker. -/
def endOffset (off : Nat) (sizes : List Nat) : Nat :=
  off + sizes.foldr (fun s a => 16 + s + a) 0

/-- A shortcut collaborator that always reports `n` consumed bytes;
used to instantiate the external decoder on concrete inputs. -/
def lnkConsume (n : Nat) : List Byte → Sum String Nat :=
  fun _ => Sum.inr n

end CustomDestinations

/-!
## MacOS keychain database (keychain.py, KeychainDatabaseFile)

The structural layouts referenced through `keychain.yaml` are not under
src; they are modelled from spec sections 4.4 and 6 (record header:
data_size, record_index and four reserved uint32 fields, all
little-endian; integer attribute values: big-endian uint32).
-/

namespace Keychain

/-- Clamped index for Python slicing: a negative index counts from the
end of the sequence and everything is clamped into `[0, len]`. -/
def pyIndex (len : Nat) (i : Int) : Nat :=
  if i < 0 then (max 0 ((len : Int) + i)).toNat else (min i (len : Int)).toNat

/-- Python `l[i:]`. -/
def pySliceFrom {α : Type} (l : List α) (i : Int) : List α :=
  l.drop (pyIndex l.length i)

/-- Python `l[a:b]`. -/
def pySlice {α : Type} (l : List α) (a b : Int) : List α :=
  (l.take (pyIndex l.length b)).drop (pyIndex l.length a)

/-- Python `file_object.read(n)` at position `off`: a negative size
reads to end-of-file, otherwise at most `n` bytes are returned. -/
def pyRead (data : List Byte) (off : Nat) (n : Int) : List Byte :=
  if n < 0 then data.drop off else (data.drop off).take n.toNat

/-- keychain.py class KeychainDatabaseColumn: attribute identifier and
nullable attribute name (the name is kept as its ascii byte values). -/
structure KeychainDatabaseColumn where
  attributeIdentifier : Option Nat
  attributeName : Option (List Byte)
deriving DecidableEq

/-- keychain.py class KeychainDatabaseTable. -/
structure KeychainDatabaseTable where
  relationIdentifier : Nat
  relationName : List Byte
  columns : List KeychainDatabaseColumn
deriving DecidableEq

/-- Lookup in the ordered `self._tables` mapping: `dict.get` returns
None both when the key is absent and when the key itself is None. -/
def tablesGet (tables : List KeychainDatabaseTable) (rid : Option Nat) :
    Option KeychainDatabaseTable :=
  match rid with
  | none => none
  | some r => tables.find? (fun t => t.relationIdentifier = r)

/-- In-place `table.columns.append(column)` on the table registered
under `rid` (relation identifiers are unique dictionary keys, so only
the first match is touched). -/
def tablesAppendColumn : List KeychainDatabaseTable → Nat →
    KeychainDatabaseColumn → List KeychainDatabaseTable
  | [], _, _ => []
  | t :: rest, rid, col =>
    if t.relationIdentifier = rid then
      { t with columns := t.columns ++ [col] } :: rest
    else t :: tablesAppendColumn rest rid col

/-- Shallow embedding of `_ReadAttributeValueInteger` (keychain.py lines
192-230): offset 0 means the value is absent; otherwise the attribute
value data is sliced from `attribute_value_offset -
(attribute_values_data_offset + 1)` (Python slicing, so a negative start
counts from the end) and a big-endian uint32 (`uint32be`) is mapped from
it, failing with a ParseError when fewer than 4 bytes remain. -/
def readAttributeValueInteger (attributeValuesData : List Byte)
    (attributeValuesDataOffset : Nat) (attributeValueOffset : Nat) :
    Except String (Option Nat) :=
  if attributeValueOffset = 0 then .ok none
  else
    let s := pySliceFrom attributeValuesData
      ((attributeValueOffset : Int) - ((attributeValuesDataOffset : Int) + 1))
    if 4 ≤ s.length then .ok (some (beValue (s.take 4)))
    else .error "Unable to map integer attribute value data"

/-- Modelled from the spec: the `keychain_string` layout lives in
`keychain.yaml`, which is not under src; spec section 4.4 describes it as
a length-prefixed string inside the attribute-value blob, whose values
are big-endian (spec section 4.4 item 5).  Embedding of
`_ReadAttributeValueString` (keychain.py lines 232-272). -/
def readAttributeValueString (attributeValuesData : List Byte)
    (attributeValuesDataOffset : Nat) (attributeValueOffset : Nat) :
    Except String (Option (List Byte)) :=
  if attributeValueOffset = 0 then .ok none
  else
    let s := pySliceFrom attributeValuesData
      ((attributeValueOffset : Int) - ((attributeValuesDataOffset : Int) + 1))
    if 4 ≤ s.length then
      let n := beValue (s.take 4)
      if 4 + n ≤ s.length then
        if asciiValid ((s.drop 4).take n) then .ok (some ((s.drop 4).take n))
        else .error "Unable to map string attribute value data"
      else .error "Unable to map string attribute value data"
    else .error "Unable to map string attribute value data"

/-- Modelled from the spec: the `keychain_record_header` layout lives in
`keychain.yaml`, which is not under src; spec section 6 gives it as
data_size, record_index and four reserved fields, six little-endian
uint32 values.  Embedding of `_ReadRecordHeader` (keychain.py lines
364-386), projected to the `data_size` field the callers use. -/
def readRecordHeader (data : List Byte) (off : Nat) : Except String Nat :=
  if off + 24 ≤ data.length then .ok (leUInt32At data off)
  else .error "Unable to read record header"

/-- Shallow embedding of `_ReadRecordAttributeValueOffset` (keychain.py
lines 316-362): `n` little-endian uint32 offsets read right after the
record header. -/
def readRecordAttributeValueOffsets (data : List Byte) (off n : Nat) :
    Except String (List Nat) :=
  if off + 4 * n ≤ data.length then
    .ok ((List.range n).map (fun i => leUInt32At data (off + 4 * i)))
  else .error "Unable to map record attribute value offsets data"

/-- The attribute values data blob of a schema attributes record: the
record's bytes after the 24-byte header and the six 4-byte offsets, up
to the record's declared `data_size` (`file_object.read` of a negative
size reads to end-of-file). -/
def attributeValuesDataOf (data : List Byte) (recordOffset dataSize : Nat) :
    List Byte :=
  pyRead data (recordOffset + 48) ((dataSize : Int) - 48)

/-- Shallow embedding of `_ReadRecordSchemaAttributes` (keychain.py
lines 388-497).  Returns the updated table registry together with the
raised error, if any; the only mutation the Python method performs is
the final `table.columns.append(column)`, which happens after every
check has passed. -/
def readRecordSchemaAttributes (data : List Byte) (recordOffset : Nat)
    (tables : List KeychainDatabaseTable) :
    List KeychainDatabaseTable × Option String :=
  match readRecordHeader data recordOffset with
  | .error e => (tables, some e)
  | .ok dataSize =>
    match readRecordAttributeValueOffsets data (recordOffset + 24) 6 with
    | .error e => (tables, some e)
    | .ok offsets =>
      -- the attribute values data start 48 bytes into the record: the
      -- 24-byte record header plus the six 4-byte offsets
      let attributeValuesDataOffset := 48
      let attributeValuesData := attributeValuesDataOf data recordOffset dataSize
      match readAttributeValueInteger attributeValuesData
          attributeValuesDataOffset (offsets.getD 0 0) with
      | .error e => (tables, some e)
      | .ok relationIdentifier =>
        match readAttributeValueInteger attributeValuesData
            attributeValuesDataOffset (offsets.getD 1 0) with
        | .error e => (tables, some e)
        | .ok attributeIdentifier =>
          match readAttributeValueInteger attributeValuesData
              attributeValuesDataOffset (offsets.getD 2 0) with
          | .error e => (tables, some e)
          | .ok _ =>
            match readAttributeValueString attributeValuesData
                attributeValuesDataOffset (offsets.getD 3 0) with
            | .error e => (tables, some e)
            | .ok attributeName =>
              match readAttributeValueInteger attributeValuesData
                  attributeValuesDataOffset (offsets.getD 5 0) with
              | .error e => (tables, some e)
              | .ok _ =>
                match tablesGet tables relationIdentifier with
                | none => (tables, some "Missing table for relation identifier")
                | some table =>
                  -- fall back to the raw 4-byte identifier token when the
                  -- attribute_name slot is absent but the
                  -- attribute_identifier slot is present
                  let nameResult : Except String (Option (List Byte)) :=
                    if attributeName = none ∧ offsets.getD 1 0 ≠ 0 then
                      let k := (offsets.getD 1 0 : Int) -
                        ((attributeValuesDataOffset : Int) + 1)
                      let token := pySlice attributeValuesData k (k + 4)
                      if asciiValid token then .ok (some token)
                      else .error "UnicodeDecodeError"
                    else .ok attributeName
                  match nameResult with
                  | .error e => (tables, some e)
                  | .ok finalName =>
                    (tablesAppendColumn tables table.relationIdentifier
                      ⟨attributeIdentifier, finalName⟩, none)

end Keychain

/-!
## Concrete inputs used by witnesses and counterexamples
-/

/-- An all-zero 114-byte v1 DestList entry (path_size 0). -/
def dV1ex : List Byte := List.replicate 114 0

/-- An all-zero 134-byte v3 DestList entry (path_size 0). -/
def dV3ex : List Byte := List.replicate 134 0

/-- The record decoded from `dV1ex`. -/
def eV1ex : AutomaticDestinations.DestListEntryV1 :=
  ⟨0, List.replicate 16 0, List.replicate 16 0, List.replicate 16 0,
   List.replicate 16 0, List.replicate 16 0, 0, 0, List.replicate 4 0,
   0, 0, 0, []⟩

/-- The record decoded from `dV3ex`. -/
def eV3ex : AutomaticDestinations.DestListEntryV3 :=
  ⟨0, List.replicate 16 0, List.replicate 16 0, List.replicate 16 0,
   List.replicate 16 0, List.replicate 16 0, 0, 0, List.replicate 4 0,
   0, 0, 0, 0, 0, 0, [], 0⟩

/-- A 32-byte DestList header with format version 7. -/
def dlHeader7ex : List Byte := [7, 0, 0, 0] ++ List.replicate 28 0

/-- A 32-byte DestList header with format version 3. -/
def dlHeader3ex : List Byte := [3, 0, 0, 0] ++ List.replicate 28 0

/-- Streams of a container whose second non-DestList stream fails to
open: a good stream A, a failing stream B, and a further good stream C. -/
def streamsEx : List AutomaticDestinations.OleStream :=
  [⟨"A", Sum.inr 10⟩, ⟨"B", Sum.inl "boom"⟩, ⟨"C", Sum.inr 7⟩]

/-- A schema attributes record of 56 bytes: data_size 56, six attribute
value offsets of which slot 0 points at a big-endian relation identifier
1 and slot 1 at the raw identifier token "ABCD", slots 2 to 5 absent. -/
def recC58ex : List Byte :=
  [56, 0, 0, 0] ++ List.replicate 20 0 ++
  ([49, 0, 0, 0] ++ [53, 0, 0, 0] ++ List.replicate 16 0) ++
  ([0, 0, 0, 1] ++ [65, 66, 67, 68])

/-- A registry holding one table with relation identifier 1 and no
columns. -/
def tables1ex : List Keychain.KeychainDatabaseTable := [⟨1, [84], []⟩]

/-- A 20-byte custom destinations file header: unknown1 = 2, header
value type 1, entry count 1. -/
def cdHeaderEx : List Byte :=
  [2, 0, 0, 0, 0, 0, 0, 0, 0, 0, 0, 0, 1, 0, 0, 0, 1, 0, 0, 0]

/-- The little-endian bytes of the footer signature 0xBABFFBAB. -/
def sigBytesEx : List Byte := [0xab, 0xfb, 0xbf, 0xba]

/-- A well-formed custom destinations file: header, one entry (marker
plus a 2-byte shortcut payload), footer. -/
def cdFileGoodEx : List Byte :=
  cdHeaderEx ++ CustomDestinations.LNK_GUID ++ [0xAA, 0xBB] ++ sigBytesEx

/-- The well-formed file followed by 12 trailing bytes after the
footer position. -/
def cdFileTrailingEx : List Byte := cdFileGoodEx ++ List.replicate 12 0

/-- A custom destinations file whose trailing 16 bytes do not match the
marker and carry the footer signature only in their last 4 bytes, not at
the position where the scan validates the footer. -/
def cdFileBadFooterEx : List Byte :=
  cdHeaderEx ++ CustomDestinations.LNK_GUID ++ [0xAA, 0xBB] ++
  ([0xAA, 0, 0, 0] ++ List.replicate 8 0 ++ sigBytesEx)

/-- A custom destinations file whose first 16-byte marker is not the
shortcut class identifier. -/
def cdFileBadFirstEx : List Byte :=
  cdHeaderEx ++ List.replicate 16 0 ++ sigBytesEx

/-!
## Claim theorems
-/

/-- Claim C10 (amended): FromFiletime returns None for every negative
filetime; for a non-negative filetime whose quotient by 10 stays within
Python's datetime range it returns 1601-01-01 00:00:00 plus
filetime-div-10 microseconds (the sub-microsecond remainder discarded);
for larger values the datetime addition overflows instead of returning a
datetime. -/
theorem fromFiletime_behavior :
    (∀ filetime : Int, filetime < 0 → FromFiletime filetime = .noneResult) ∧
    (∀ filetime : Int, 0 ≤ filetime →
      (filetime / 10).toNat ≤ datetimeMaxMicrosecondsFrom1601 →
      FromFiletime filetime = .datetime (filetime / 10).toNat) ∧
    (∀ filetime : Int, 0 ≤ filetime →
      datetimeMaxMicrosecondsFrom1601 < (filetime / 10).toNat →
      FromFiletime filetime = .overflowError) := by
  refine ⟨fun ft h => ?_, fun ft h1 h2 => ?_, fun ft h1 h2 => ?_⟩
  · simp [FromFiletime, h]
  · simp [FromFiletime, not_lt.mpr h1, h2]
  · simp [FromFiletime, not_lt.mpr h1, not_le.mpr h2]

/-- Witness for C10: the three behaviors at concrete inputs. -/
theorem fromFiletime_behavior_witness :
    FromFiletime (-5) = .noneResult ∧ FromFiletime 20 = .datetime 2 ∧
    FromFiletime 3000000000000000001 = .overflowError :=
  ⟨fromFiletime_behavior.1 (-5) (by decide),
   fromFiletime_behavior.2.1 20 (by decide) (by decide),
   fromFiletime_behavior.2.2 3000000000000000001 (by decide) (by decide)⟩

/-- Counterexample for C10 as stated: 3000000000000000000 is a
non-negative 64-bit filetime, yet the conversion raises OverflowError
rather than returning the datetime 1601-01-01 plus filetime-div-10
microseconds. -/
theorem fromFiletime_large_input_no_datetime :
    FromFiletime 3000000000000000000 = .overflowError ∧
    (3000000000000000000 : Int) < 18446744073709551616 ∧
    FromFiletime 3000000000000000000 ≠
      FiletimeResult.datetime 300000000000000000 := by
  refine ⟨by decide, by decide, by decide⟩

/-- Claim C1 (amended): a successful size-hint decode of a v1 DestList
entry consumes 114 + path_size * 2 bytes (the fixed prefix is 114 bytes,
not 60), and a v3 entry consumes 20 bytes more than the v1 value. -/
theorem destListEntry_consumed_bytes :
    (∀ data off e n,
      AutomaticDestinations.readDestListEntryV1 data off = .ok (e, n) →
      n = 114 + 2 * e.pathSize) ∧
    (∀ data off e n,
      AutomaticDestinations.readDestListEntryV3 data off = .ok (e, n) →
      n = (114 + 2 * e.pathSize) + 20) := by
  constructor
  · intro data off e n h
    unfold AutomaticDestinations.readDestListEntryV1 at h
    split_ifs at h
    injection h with h1
    rw [Prod.mk.injEq] at h1
    obtain ⟨h2, h3⟩ := h1
    subst h2
    subst h3
    rfl
  · intro data off e n h
    unfold AutomaticDestinations.readDestListEntryV3 at h
    split_ifs at h
    injection h with h1
    rw [Prod.mk.injEq] at h1
    obtain ⟨h2, h3⟩ := h1
    subst h2
    subst h3
    dsimp only
    omega

/-- Witness for C1: the amended size formulas at concrete all-zero
entries. -/
theorem destListEntry_consumed_bytes_witness :
    114 = 114 + 2 * eV1ex.pathSize ∧
    134 = (114 + 2 * eV3ex.pathSize) + 20 :=
  ⟨destListEntry_consumed_bytes.1 dV1ex 0 eV1ex 114 (by decide),
   destListEntry_consumed_bytes.2 dV3ex 0 eV3ex 134 (by decide)⟩

/-- Counterexample for C1 as stated: the all-zero 114-byte v1 entry has
path_size 0 and consumes 114 bytes, not 60 + 0 * 2. -/
theorem destListEntry_v1_size_not_60 :
    AutomaticDestinations.consumedOfV1 dV1ex 0 = some 114 ∧
    AutomaticDestinations.pathSizeOfV1 dV1ex 0 = some 0 ∧
    (114 : Nat) ≠ 60 + 0 * 2 := by
  refine ⟨by decide, by decide, by decide⟩

/-- Claim C4: reading the DestList header of a buffer that holds the full
32-byte header fails with the unsupported-version error exactly when the
decoded format_version is outside {1, 3, 4}, and succeeds (no version
error) when the version is 1, 3 or 4. -/
theorem destListHeader_version_gate (data : List Byte) (off : Nat)
    (h : off + 32 ≤ data.length) :
    ((∃ v, AutomaticDestinations.readDestListHeader data off =
        .error (.unsupportedVersion v)) ↔
      ¬(leUInt32At data off = 1 ∨ leUInt32At data off = 3 ∨
        leUInt32At data off = 4)) ∧
    ((leUInt32At data off = 1 ∨ leUInt32At data off = 3 ∨
        leUInt32At data off = 4) →
      ∃ hdr, AutomaticDestinations.readDestListHeader data off = .ok hdr ∧
        hdr.formatVersion = leUInt32At data off) := by
  unfold AutomaticDestinations.readDestListHeader
  rw [if_pos h]
  by_cases hv : leUInt32At data off = 1 ∨ leUInt32At data off = 3 ∨
      leUInt32At data off = 4
  · rw [if_neg (by tauto)]
    refine ⟨⟨?_, ?_⟩, ?_⟩
    · rintro ⟨v, hvv⟩
      exact Except.noConfusion hvv
    · intro hcon
      exact absurd hv hcon
    · intro _
      exact ⟨_, rfl, rfl⟩
  · rw [if_pos (by tauto)]
    refine ⟨⟨?_, ?_⟩, ?_⟩
    · intro _
      exact hv
    · intro _
      exact ⟨_, rfl⟩
    · intro hcon
      exact absurd hcon hv

/-- Witness for C4: version 7 is rejected with the version error,
version 3 is accepted. -/
theorem destListHeader_version_gate_witness :
    (∃ v, AutomaticDestinations.readDestListHeader dlHeader7ex 0 =
      .error (.unsupportedVersion v)) ∧
    (∃ hdr, AutomaticDestinations.readDestListHeader dlHeader3ex 0 = .ok hdr ∧
      hdr.formatVersion = leUInt32At dlHeader3ex 0) :=
  ⟨(destListHeader_version_gate dlHeader7ex 0 (by decide)).1.mpr (by decide),
   (destListHeader_version_gate dlHeader3ex 0 (by decide)).2 (by decide)⟩

/-- Claim C2 (amended): when a non-DestList stream's shortcut decode
raises an I/O error, the error is wrapped and re-raised as a ParseError
identifying that stream, the entries of the streams already processed
are kept, but the iteration stops: the streams after the failing one are
not attempted (their entries never appear in the result, whatever they
contain). -/
theorem autoDest_stream_error_stops_iteration :
    ∀ (pre : List AutomaticDestinations.OleStream)
      (s : AutomaticDestinations.OleStream)
      (post : List AutomaticDestinations.OleStream) (message : String),
      (∀ x ∈ pre, x.name = "DestList" ∨ ∃ n, x.lnkOutcome = Sum.inr n) →
      s.name ≠ "DestList" →
      s.lnkOutcome = Sum.inl message →
      AutomaticDestinations.readLNKFiles (pre ++ s :: post) =
        (pre.filterMap AutomaticDestinations.streamEntry,
         some ("Unable to parse LNK file from stream: " ++ s.name ++
               " with error: " ++ message)) := by
  intro pre
  induction pre with
  | nil =>
    intro s post message _ hname hout
    simp [AutomaticDestinations.readLNKFiles, AutomaticDestinations.readLNKFile,
      hname, hout]
  | cons x rest ih =>
    intro s post message hpre hname hout
    by_cases hd : x.name = "DestList"
    · rw [List.cons_append]
      unfold AutomaticDestinations.readLNKFiles
      rw [if_pos hd]
      rw [ih s post message (fun y hy => hpre y (List.mem_cons_of_mem x hy))
        hname hout]
      simp [AutomaticDestinations.streamEntry, hd]
    · rcases hpre x (List.mem_cons_self x rest) with hdl | ⟨n, hn⟩
      · exact absurd hdl hd
      · rw [List.cons_append]
        unfold AutomaticDestinations.readLNKFiles
        rw [if_neg hd]
        rw [show AutomaticDestinations.readLNKFile x =
          .ok ⟨x.name, n⟩ from by
            unfold AutomaticDestinations.readLNKFile
            rw [hn]]
        rw [ih s post message (fun y hy => hpre y (List.mem_cons_of_mem x hy))
          hname hout]
        simp [AutomaticDestinations.streamEntry, hd, hn]

/-- Witness for C2: a container with a good stream, the DestList stream,
a failing stream and one further stream; the result keeps the first
entry, names the failing stream, and never reaches the last stream. -/
theorem autoDest_stream_error_stops_iteration_witness :
    AutomaticDestinations.readLNKFiles
      [⟨"A2", Sum.inr 5⟩, ⟨"DestList", Sum.inr 9⟩, ⟨"Bad", Sum.inl "io"⟩,
       ⟨"Z", Sum.inr 3⟩] =
      ([⟨"A2", 5⟩],
       some "Unable to parse LNK file from stream: Bad with error: io") := by
  have h := autoDest_stream_error_stops_iteration
    [⟨"A2", Sum.inr 5⟩, ⟨"DestList", Sum.inr 9⟩] ⟨"Bad", Sum.inl "io"⟩
    [⟨"Z", Sum.inr 3⟩] "io"
    (by
      intro x hx
      simp only [List.mem_cons, List.not_mem_nil, or_false] at hx
      rcases hx with rfl | rfl
      · exact Or.inr ⟨5, rfl⟩
      · exact Or.inl rfl)
    (by decide) rfl
  exact h.trans (by decide)

/-- Counterexample for C2 as stated: in `streamsEx` the stream C follows
the failing stream B, yet no entry for C is collected; the iteration
aborted instead of attempting every remaining stream. -/
theorem autoDest_failed_stream_aborts_remaining :
    AutomaticDestinations.readLNKFiles streamsEx =
      ([⟨"A", 10⟩],
       some "Unable to parse LNK file from stream: B with error: boom") ∧
    (AutomaticDestinations.readLNKFiles streamsEx).1.map
      AutomaticDestinations.LNKFileEntry.identifier = ["A"] := by
  refine ⟨by decide, by decide⟩

/-- Claim C5: when a schema attributes record's relation identifier does
not resolve to a registered table, the read fails with a ParseError and
the table registry is returned unchanged (the only mutation, the column
append, happens after the lookup succeeds). -/
theorem keychain_missing_relation_fails_without_mutation :
    ∀ data recordOffset tables dataSize offsets rid,
      Keychain.readRecordHeader data recordOffset = .ok dataSize →
      Keychain.readRecordAttributeValueOffsets data (recordOffset + 24) 6 =
        .ok offsets →
      Keychain.readAttributeValueInteger
        (Keychain.attributeValuesDataOf data recordOffset dataSize) 48
        (offsets.getD 0 0) = .ok rid →
      Keychain.tablesGet tables rid = none →
      (Keychain.readRecordSchemaAttributes data recordOffset tables).1 =
        tables ∧
      (Keychain.readRecordSchemaAttributes data recordOffset tables).2 ≠
        none := by
  intro data recordOffset tables dataSize offsets rid h1 h2 h3 hmiss
  unfold Keychain.readRecordSchemaAttributes
  rw [h1, h2]
  simp only [h3]
  cases h4 : Keychain.readAttributeValueInteger
      (Keychain.attributeValuesDataOf data recordOffset dataSize) 48
      (offsets.getD 1 0) with
  | error e => simp
  | ok aid =>
    cases h5 : Keychain.readAttributeValueInteger
        (Keychain.attributeValuesDataOf data recordOffset dataSize) 48
        (offsets.getD 2 0) with
    | error e => simp
    | ok nt =>
      cases h6 : Keychain.readAttributeValueString
          (Keychain.attributeValuesDataOf data recordOffset dataSize) 48
          (offsets.getD 3 0) with
      | error e => simp
      | ok nm =>
        cases h7 : Keychain.readAttributeValueInteger
            (Keychain.attributeValuesDataOf data recordOffset dataSize) 48
            (offsets.getD 5 0) with
        | error e => simp
        | ok adt =>
          simp [hmiss]

/-- Witness for C5: the concrete record `recC58ex` against an empty
registry fails and leaves the registry empty. -/
theorem keychain_missing_relation_witness :
    (Keychain.readRecordSchemaAttributes recC58ex 0 []).1 = [] ∧
    (Keychain.readRecordSchemaAttributes recC58ex 0 []).2 ≠ none :=
  keychain_missing_relation_fails_without_mutation recC58ex 0 [] 56
    [49, 53, 0, 0, 0, 0] (some 1) (by decide) (by decide) (by decide)
    (by decide)

/-- Claim C8: when the attribute_name slot is absent (offset 0) while
the attribute_identifier slot is present (offset non-zero), the column
appended to the resolved table carries as its name the ascii decoding of
the raw 4-byte token sliced from the attribute values data at
attribute_identifier_offset - (attribute_values_data_offset + 1). -/
theorem keychain_attribute_name_fallback :
    ∀ data recordOffset tables dataSize offsets rid aid nt adt table,
      Keychain.readRecordHeader data recordOffset = .ok dataSize →
      Keychain.readRecordAttributeValueOffsets data (recordOffset + 24) 6 =
        .ok offsets →
      Keychain.readAttributeValueInteger
        (Keychain.attributeValuesDataOf data recordOffset dataSize) 48
        (offsets.getD 0 0) = .ok rid →
      Keychain.readAttributeValueInteger
        (Keychain.attributeValuesDataOf data recordOffset dataSize) 48
        (offsets.getD 1 0) = .ok aid →
      Keychain.readAttributeValueInteger
        (Keychain.attributeValuesDataOf data recordOffset dataSize) 48
        (offsets.getD 2 0) = .ok nt →
      offsets.getD 3 0 = 0 →
      Keychain.readAttributeValueInteger
        (Keychain.attributeValuesDataOf data recordOffset dataSize) 48
        (offsets.getD 5 0) = .ok adt →
      offsets.getD 1 0 ≠ 0 →
      Keychain.tablesGet tables rid = some table →
      asciiValid (Keychain.pySlice
        (Keychain.attributeValuesDataOf data recordOffset dataSize)
        ((offsets.getD 1 0 : Int) - 49)
        (((offsets.getD 1 0 : Int) - 49) + 4)) = true →
      Keychain.readRecordSchemaAttributes data recordOffset tables =
        (Keychain.tablesAppendColumn tables table.relationIdentifier
          ⟨aid, some (Keychain.pySlice
            (Keychain.attributeValuesDataOf data recordOffset dataSize)
            ((offsets.getD 1 0 : Int) - 49)
            (((offsets.getD 1 0 : Int) - 49) + 4))⟩,
         none) := by
  intro data recordOffset tables dataSize offsets rid aid nt adt table
    h1 h2 h3 h4 h5 ho3 h7 ho1 htab hascii
  unfold Keychain.readRecordSchemaAttributes
  simp only [h1, h2, h3, h4, h5, ho3, h7, htab,
    Keychain.readAttributeValueString, if_pos rfl, Nat.cast_ofNat]
  norm_num
  rw [if_neg (by simpa using ho1)]
  rw [if_pos (by simpa using hascii)]

/-- Witness for C8: the concrete record `recC58ex` against the registry
`tables1ex` appends the column with name "ABCD" taken from the raw
identifier token. -/
theorem keychain_attribute_name_fallback_witness :
    Keychain.readRecordSchemaAttributes recC58ex 0 tables1ex =
      ([⟨1, [84], [⟨some 1094861636, some [65, 66, 67, 68]⟩]⟩], none) :=
  (keychain_attribute_name_fallback recC58ex 0 tables1ex 56
    [49, 53, 0, 0, 0, 0] (some 1) (some 1094861636) none none ⟨1, [84], []⟩
    (by decide) (by decide) (by decide) (by decide) (by decide) (by decide)
    (by decide) (by decide) (by decide) (by decide)).trans (by decide)

/-- Claim C9: an integer attribute value is decoded from the attribute
values blob as a big-endian 32-bit value, while a structural header
field of the same format (the record header's data_size) is decoded
little-endian. -/
theorem keychain_integer_attribute_endianness :
    (∀ (avd : List Byte) (o a b c d : Nat) (rest : List Byte),
      o ≠ 0 →
      Keychain.pySliceFrom avd ((o : Int) - 49) = a :: b :: c :: d :: rest →
      Keychain.readAttributeValueInteger avd 48 o =
        .ok (some (a * 16777216 + b * 65536 + c * 256 + d))) ∧
    (∀ (data : List Byte) (off a b c d : Nat) (rest : List Byte),
      off + 24 ≤ data.length →
      data.drop off = a :: b :: c :: d :: rest →
      Keychain.readRecordHeader data off =
        .ok (a + b * 256 + c * 65536 + d * 16777216)) := by
  constructor
  · intro avd o a b c d rest ho hs
    unfold Keychain.readAttributeValueInteger
    rw [if_neg ho]
    simp only [Nat.cast_ofNat]
    norm_num at hs ⊢
    rw [hs]
    simp [beValue, List.foldl]
    ring
  · intro data off a b c d rest h hdrop
    unfold Keychain.readRecordHeader
    rw [if_pos h]
    simp [leUInt32At, sliceBytes, hdrop, leValue]
    ring

/-- A successful custom header read leaves the cursor inside the file. -/
theorem readFileHeader_cursor_le (data : List Byte) (c0 : Nat)
    (h : CustomDestinations.readFileHeader data = .ok c0) :
    c0 ≤ data.length := by
  unfold CustomDestinations.readFileHeader at h
  split_ifs at h <;> injection h with h1 <;> omega

/-- Claim C7: when the very first 16-byte entry marker either cannot be
decoded or does not equal the shortcut class identifier, reading a
custom destinations file fails with a ParseError and produces zero
entries. -/
theorem customDest_bad_first_marker_fatal :
    ∀ (lnk : List Byte → Sum String Nat) (data : List Byte) (c0 : Nat),
      CustomDestinations.readFileHeader data = .ok c0 →
      4 < data.length - c0 →
      (readBytes data c0 16 = none ∨
        (∃ g, readBytes data c0 16 = some g ∧
          g ≠ CustomDestinations.LNK_GUID)) →
      ∃ e, CustomDestinations.readFileObject lnk data = ⟨[], some e⟩ := by
  intro lnk data c0 hh hrem hbad
  unfold CustomDestinations.readFileObject
  rw [hh]
  rcases hbad with hnone | ⟨g, hg, hne⟩
  · simp only [CustomDestinations.scanLoop, if_neg (by omega : ¬ (data.length - c0 ≤ 4)),
      hnone]
    exact ⟨_, rfl⟩
  · simp only [CustomDestinations.scanLoop, if_neg (by omega : ¬ (data.length - c0 ≤ 4)),
      hg, if_pos hne]
    exact ⟨_, rfl⟩

/-- Witness for C7: the file with a zeroed first marker fails and
produces no entries. -/
theorem customDest_bad_first_marker_witness :
    ∃ e, CustomDestinations.readFileObject (CustomDestinations.lnkConsume 0)
      cdFileBadFirstEx = ⟨[], some e⟩ :=
  customDest_bad_first_marker_fatal (CustomDestinations.lnkConsume 0)
    cdFileBadFirstEx 20 (by decide) (by decide)
    (Or.inr ⟨List.replicate 16 0, by decide, by decide⟩)

/-- Splitting one entry off the end-of-entries offset. -/
theorem endOffset_cons (off sz : Nat) (rest : List Nat) :
    CustomDestinations.endOffset off (sz :: rest) =
      CustomDestinations.endOffset (off + 16 + sz) rest := by
  simp only [CustomDestinations.endOffset, List.foldr_cons]
  omega

/-- The entry scan loop on a well-formed run of entries: starting at
`off` with the remaining byte count `data.length - off`, it collects
exactly the run's payload sizes and stops at the run's end offset with
no error, provided the bytes there terminate the scan (either at most 4
bytes remain, or a non-matching marker block starting with the footer
signature follows). -/
theorem scanLoop_chunks (lnk : List Byte → Sum String Nat) (data : List Byte) :
    ∀ (sizes : List Nat) (fuel off : Nat) (acc : List Nat) (fc : Bool),
      CustomDestinations.chunksSpec lnk data off sizes = true →
      sizes.length < fuel →
      (data.length ≤ CustomDestinations.endOffset off sizes + 4 ∨
        (CustomDestinations.endOffset off sizes + 16 ≤ data.length ∧
         (fc = true ∨ sizes ≠ []) ∧
         sliceBytes data (CustomDestinations.endOffset off sizes) 16 ≠
           CustomDestinations.LNK_GUID ∧
         leUInt32At data (CustomDestinations.endOffset off sizes) =
           CustomDestinations.FILE_FOOTER_SIGNATURE)) →
      CustomDestinations.scanLoop lnk data fuel off (data.length - off) fc acc =
        ⟨acc.reverse ++ sizes, none, CustomDestinations.endOffset off sizes⟩ := by
  intro sizes
  induction sizes with
  | nil =>
    intro fuel off acc fc hc hf hterm
    obtain ⟨fuel2, rfl⟩ : ∃ f2, fuel = f2 + 1 := ⟨fuel - 1, by omega⟩
    rw [show CustomDestinations.endOffset off [] = off from by
      simp [CustomDestinations.endOffset]] at hterm ⊢
    rcases hterm with hA | ⟨h16, hfc, hguid, hsig⟩
    · simp only [CustomDestinations.scanLoop,
        if_pos (show data.length - off ≤ 4 by omega)]
      simp
    · have hfc2 : fc = true := by
        rcases hfc with h | h
        · exact h
        · simp at h
      subst hfc2
      have hread : readBytes data off 16 = some (sliceBytes data off 16) := by
        unfold readBytes
        rw [if_pos (by omega)]
      simp only [CustomDestinations.scanLoop,
        if_neg (show ¬ (data.length - off ≤ 4) by omega), hread, if_pos hguid,
        if_pos rfl]
      unfold CustomDestinations.readFileFooter
      rw [if_pos (show off + 4 ≤ data.length by omega),
        if_neg (show ¬ (leUInt32At data off ≠
          CustomDestinations.FILE_FOOTER_SIGNATURE) from by simp [hsig])]
      simp
  | cons sz rest ih =>
    intro fuel off acc fc hc hf hterm
    obtain ⟨fuel2, rfl⟩ : ∃ f2, fuel = f2 + 1 := ⟨fuel - 1, by omega⟩
    simp only [CustomDestinations.chunksSpec, Bool.and_eq_true,
      decide_eq_true_eq] at hc
    obtain ⟨⟨⟨⟨hm1, hm2⟩, hm3⟩, hm4⟩, hrest⟩ := hc
    rw [endOffset_cons] at hterm ⊢
    have hread : readBytes data off 16 = some (sliceBytes data off 16) := by
      unfold readBytes
      rw [if_pos hm1]
    simp only [CustomDestinations.scanLoop,
      if_neg (show ¬ (data.length - off ≤ 4) by omega), hread, hm2,
      if_neg (show ¬ (CustomDestinations.LNK_GUID ≠ CustomDestinations.LNK_GUID)
        from by simp)]
    rw [show data.length - off - 16 = data.length - (off + 16) from by omega]
    rw [hm3]
    simp only [min_eq_left hm4]
    rw [show data.length - (off + 16) - sz = data.length - (off + 16 + sz) from
      by omega]
    rw [ih fuel2 (off + 16 + sz) (sz :: acc) true hrest
      (by simp only [List.length_cons] at hf; omega)
      (by
        rcases hterm with hA | ⟨a, _, c, d⟩
        · exact Or.inl hA
        · exact Or.inr ⟨a, Or.inl rfl, c, d⟩)]
    simp

/-- A non-empty well-formed run of entries lies inside the file. -/
theorem chunksSpec_bound (lnk : List Byte → Sum String Nat) (data : List Byte) :
    ∀ (sizes : List Nat) (off : Nat),
      CustomDestinations.chunksSpec lnk data off sizes = true →
      sizes ≠ [] → off + 16 * sizes.length ≤ data.length := by
  intro sizes
  induction sizes with
  | nil =>
    intro off _ h
    exact absurd rfl h
  | cons sz rest ih =>
    intro off hc _
    simp only [CustomDestinations.chunksSpec, Bool.and_eq_true,
      decide_eq_true_eq] at hc
    obtain ⟨⟨⟨⟨hm1, _⟩, _⟩, _⟩, hrest⟩ := hc
    rcases rest with _ | ⟨sz2, rest2⟩
    · simp only [List.length_cons, List.length_nil]
      omega
    · have := ih (off + 16 + sz) hrest (by simp)
      simp only [List.length_cons] at this ⊢
      omega

/-- Claim C6 (amended): a custom destinations file with a valid header
and a well-formed run of N marker-delimited entries decodes to exactly N
entries with a validated footer when the entries are followed either by
exactly the 4-byte footer signature, or by further bytes whose leading
16-byte block is not a marker and whose FIRST 4 bytes carry the footer
signature (the scan validates the footer where the non-matching block
begins, not at end-of-file); and the footer read fails with a ParseError
whenever the 4 bytes it decodes differ from 0xBABFFBAB. -/
theorem customDest_entries_then_footer :
    (∀ (lnk : List Byte → Sum String Nat) (data : List Byte) (c0 : Nat)
       (sizes : List Nat),
      CustomDestinations.readFileHeader data = .ok c0 →
      CustomDestinations.chunksSpec lnk data c0 sizes = true →
      ((data.length = CustomDestinations.endOffset c0 sizes + 4 ∧
        leUInt32At data (CustomDestinations.endOffset c0 sizes) =
          CustomDestinations.FILE_FOOTER_SIGNATURE) ∨
       (CustomDestinations.endOffset c0 sizes + 16 ≤ data.length ∧
        sizes ≠ [] ∧
        sliceBytes data (CustomDestinations.endOffset c0 sizes) 16 ≠
          CustomDestinations.LNK_GUID ∧
        leUInt32At data (CustomDestinations.endOffset c0 sizes) =
          CustomDestinations.FILE_FOOTER_SIGNATURE)) →
      CustomDestinations.readFileObject lnk data = ⟨sizes, none⟩) ∧
    (∀ (data : List Byte) (off : Nat),
      off + 4 ≤ data.length →
      leUInt32At data off ≠ CustomDestinations.FILE_FOOTER_SIGNATURE →
      CustomDestinations.readFileFooter data off =
        .error "Invalid footer signature") := by
  constructor
  · intro lnk data c0 sizes hh hc hterm
    have hfuel : sizes.length < data.length + 1 := by
      by_cases hsz : sizes = []
      · subst hsz
        simp
      · have h1 := chunksSpec_bound lnk data sizes c0 hc hsz
        omega
    have hscan := scanLoop_chunks lnk data sizes (data.length + 1) c0 [] false
      hc hfuel
      (by
        rcases hterm with ⟨hA, _⟩ | ⟨a, b, c, d⟩
        · exact Or.inl (by omega)
        · exact Or.inr ⟨a, Or.inr b, c, d⟩)
    have hsig : leUInt32At data (CustomDestinations.endOffset c0 sizes) =
        CustomDestinations.FILE_FOOTER_SIGNATURE := by
      rcases hterm with ⟨_, h⟩ | ⟨_, _, _, h⟩ <;> exact h
    have hle : CustomDestinations.endOffset c0 sizes + 4 ≤ data.length := by
      rcases hterm with ⟨h, _⟩ | ⟨h, _, _, _⟩ <;> omega
    unfold CustomDestinations.readFileObject
    rw [hh]
    simp only [hscan]
    unfold CustomDestinations.readFileFooter
    rw [if_pos hle,
      if_neg (show ¬ (leUInt32At data (CustomDestinations.endOffset c0 sizes) ≠
        CustomDestinations.FILE_FOOTER_SIGNATURE) from by simp [hsig])]
    simp
  · intro data off h1 h2
    unfold CustomDestinations.readFileFooter
    rw [if_pos h1, if_pos h2]

/-- Witness for C6: the concrete one-entry file ending in the footer
yields exactly one entry and a validated footer, and a footer read over
four zero bytes fails. -/
theorem customDest_entries_then_footer_witness :
    CustomDestinations.readFileObject (CustomDestinations.lnkConsume 2)
      cdFileGoodEx = ⟨[2], none⟩ ∧
    CustomDestinations.readFileFooter [0, 0, 0, 0] 0 =
      .error "Invalid footer signature" :=
  ⟨customDest_entries_then_footer.1 (CustomDestinations.lnkConsume 2)
      cdFileGoodEx 20 [2] (by decide) (by decide)
      (Or.inl ⟨by decide, by decide⟩),
   customDest_entries_then_footer.2 [0, 0, 0, 0] 0 (by decide) (by decide)⟩

/-- Counterexample for C6 as stated: `cdFileBadFooterEx` has a valid
header, one valid marker-delimited entry, and then 16 bytes that do not
form a matching marker but end in the footer signature; yet decoding
fails with a ParseError instead of yielding the entry with a validated
footer, because the footer is validated at the start of the non-matching
block, not at end-of-file. -/
theorem customDest_footer_checked_at_block_start :
    CustomDestinations.readFileHeader cdFileBadFooterEx = .ok 20 ∧
    CustomDestinations.chunksSpec (CustomDestinations.lnkConsume 2)
      cdFileBadFooterEx 20 [2] = true ∧
    sliceBytes cdFileBadFooterEx 38 16 ≠ CustomDestinations.LNK_GUID ∧
    sliceBytes cdFileBadFooterEx 50 4 = sigBytesEx ∧
    CustomDestinations.readFileObject (CustomDestinations.lnkConsume 2)
      cdFileBadFooterEx = ⟨[2], some "Invalid footer signature"⟩ := by
  refine ⟨by decide, by decide, by decide, by decide, by decide⟩

/-- Claim C3 (amended): the trailing-data condition is checked only to
emit optional debug text; when the header read and the entry scan
succeed, the decode result consists of the scanned entries and the
outcome of the footer read at the scan's final cursor, with no component
recording trailing data. -/
theorem customDest_trailing_not_surfaced :
    ∀ (lnk : List Byte → Sum String Nat) (data : List Byte) (c0 : Nat),
      CustomDestinations.readFileHeader data = .ok c0 →
      (CustomDestinations.scanLoop lnk data (data.length + 1) c0
        (data.length - c0) false []).error = none →
      CustomDestinations.readFileObject lnk data =
        ⟨(CustomDestinations.scanLoop lnk data (data.length + 1) c0
            (data.length - c0) false []).entries,
         match CustomDestinations.readFileFooter data
             (CustomDestinations.scanLoop lnk data (data.length + 1) c0
               (data.length - c0) false []).cursor with
         | .error e => some e
         | .ok _ => none⟩ := by
  intro lnk data c0 hh herr
  unfold CustomDestinations.readFileObject
  rw [hh]
  dsimp only
  rw [herr]
  cases hf : CustomDestinations.readFileFooter data
      (CustomDestinations.scanLoop lnk data (data.length + 1) c0
        (data.length - c0) false []).cursor <;> simp [hf]

/-- Witness for C3: the file with 12 trailing bytes decodes to one entry
and no error. -/
theorem customDest_trailing_not_surfaced_witness :
    CustomDestinations.readFileObject (CustomDestinations.lnkConsume 2)
      cdFileTrailingEx = ⟨[2], none⟩ :=
  (customDest_trailing_not_surfaced (CustomDestinations.lnkConsume 2)
    cdFileTrailingEx 20 (by decide) (by decide)).trans (by decide)

/-- Counterexample for C3 as stated: `cdFileTrailingEx` triggers the
trailing-data condition and `cdFileGoodEx` does not, yet both decode to
the identical result; no count of skipped bytes (nor any other trace of
the condition) is surfaced to the caller. -/
theorem customDest_trailing_data_dropped :
    CustomDestinations.readFileObject (CustomDestinations.lnkConsume 2)
        cdFileGoodEx =
      CustomDestinations.readFileObject (CustomDestinations.lnkConsume 2)
        cdFileTrailingEx ∧
    CustomDestinations.detectsTrailingData (CustomDestinations.lnkConsume 2)
      cdFileTrailingEx = true ∧
    CustomDestinations.detectsTrailingData (CustomDestinations.lnkConsume 2)
      cdFileGoodEx = false := by
  refine ⟨by decide, by decide, by decide⟩

/-- Witness for C9: the bytes 1,2,3,4 decode to 0x01020304 as an
attribute value but to 0x04030201 as a record header field. -/
theorem keychain_integer_attribute_endianness_witness :
    Keychain.readAttributeValueInteger [1, 2, 3, 4] 48 49 =
      .ok (some (1 * 16777216 + 2 * 65536 + 3 * 256 + 4)) ∧
    Keychain.readRecordHeader ([1, 2, 3, 4] ++ List.replicate 20 9) 0 =
      .ok (1 + 2 * 256 + 3 * 65536 + 4 * 16777216) :=
  ⟨keychain_integer_attribute_endianness.1 [1, 2, 3, 4] 49 1 2 3 4 []
     (by decide) (by decide),
   keychain_integer_attribute_endianness.2 ([1, 2, 3, 4] ++ List.replicate 20 9)
     0 1 2 3 4 (List.replicate 20 9) (by decide) (by decide)⟩
